import Mathlib

/-!
Shallow embedding of the NutriGuard nutrient aggregation and
deficiency-estimation pipeline (src/app.py) and proofs of the spec claims.

Numbers are modelled by ℚ (Python floats carry exact decimal literals in all
code paths relevant here), Python dicts by association lists that preserve
insertion order, and Python strings by Lean strings whose primitive
operations (lower-casing, stripping, substring test) are re-implemented over
their character lists so that every definition is executable.
-/

namespace NutriGuard

/-- Character-level lower casing, modelling Python str.lower on the ASCII
inputs this program deals with. -/
def pyLower (s : String) : String := ⟨s.data.map Char.toLower⟩

/-- Python str.strip: drop whitespace from both ends. -/
def pyStrip (s : String) : String :=
  ⟨((s.data.dropWhile Char.isWhitespace).reverse.dropWhile Char.isWhitespace).reverse⟩

/-- Boolean test that a list starts with a given list of characters. -/
def strStarts : List Char → List Char → Bool
  | [], _ => true
  | _ :: _, [] => false
  | a :: as, b :: bs => a == b && strStarts as bs

/-- Boolean test that the first list occurs contiguously inside the second,
modelling the Python `in` operator on strings. -/
def charsContain (needle : List Char) : List Char → Bool
  | [] => strStarts needle []
  | c :: rest => strStarts needle (c :: rest) || charsContain needle rest

/-- Substring containment on strings (Python `needle in hay`). -/
def substrIn (needle hay : String) : Bool := charsContain needle.data hay.data

/-- Embedding of convert_to_mg (src/app.py lines 90-96): case-insensitive
unit match sending the gram family to ×1000 and everything else through
unchanged. -/
def convert_to_mg (amount : ℚ) (unit : String) : ℚ :=
  let u := pyLower unit
  if u = "g" ∨ u = "gram" ∨ u = "grams" then amount * 1000
  else if u = "mg" ∨ u = "milligram" ∨ u = "milligrams" then amount
  else amount

/-- Embedding of NUTRIENT_KEY_MAP (src/app.py lines 98-104), an
insertion-ordered dict from friendly category name to trigger substrings. -/
def NUTRIENT_KEY_MAP : List (String × List String) :=
  [("Protein", ["protein"]),
   ("Vitamin C", ["vitamin c", "ascorbic acid"]),
   ("Iron", ["iron"]),
   ("Calcium", ["calcium"]),
   ("Fiber", ["fiber", "dietary fiber"])]

/-- The five tracked category keys, in map order. -/
def trackedCategories : List String :=
  ["Protein", "Vitamin C", "Iron", "Calcium", "Fiber"]

/-- Does any trigger substring occur in the (already lowercased) name? -/
def anyTriggerIn (subs : List String) (low : String) : Bool :=
  subs.any (fun s => substrIn s low)

/-- The matching loop of analyze (src/app.py lines 291-296): walk the key map
in order and stop at the first category one of whose triggers occurs. -/
def matchKeyAux : List (String × List String) → String → Option String
  | [], _ => none
  | (friendly, subs) :: rest, low =>
    if anyTriggerIn subs low then some friendly else matchKeyAux rest low

/-- NutrientKeyMatcher: lowercase the raw provider name, then take the first
category of NUTRIENT_KEY_MAP with a matching trigger. -/
def matchNutrientKey (rawName : String) : Option String :=
  matchKeyAux NUTRIENT_KEY_MAP (pyLower rawName)

/-- Canonical totals: the totals_mg dict of analyze, an insertion-ordered map
from category key to accumulated milligram amount. -/
abbrev Totals := List (String × ℚ)

/-- One nutrient sample from the food-data provider: raw nutrient name,
reported value, and unit string (the (name, (val, unit)) entries produced by
get_food_nutrients, src/app.py lines 64-88). -/
abbrev Sample := String × ℚ × String

/-- Python totals_mg.get(k, 0.0). -/
def totalsGet : Totals → String → ℚ
  | [], _ => 0
  | (k1, v1) :: rest, k => if k1 = k then v1 else totalsGet rest k

/-- Python totals_mg[k] = totals_mg.get(k, 0.0) + v: update the entry in
place when the key is present, append it otherwise. -/
def addTo : Totals → String → ℚ → Totals
  | [], k, v => [(k, v)]
  | (k1, v1) :: rest, k, v =>
    if k1 = k then (k1, v1 + v) :: rest else (k1, v1) :: addTo rest k v

/-- The per-sample body of the accumulation loop (src/app.py lines 286-300):
scale the reported value by qty/100, match the raw name, and on a match add
the unit-normalized amount to that category. -/
def processSample (qty_g : ℚ) (totals : Totals) (s : Sample) : Totals :=
  let actual := s.2.1 * (qty_g / 100)
  match matchNutrientKey s.1 with
  | none => totals
  | some key => addTo totals key (convert_to_mg actual s.2.2)

/-- The per-item body of the accumulation loop (src/app.py lines 277-300):
items whose stripped name is empty or whose quantity is not positive are
skipped; otherwise every fetched sample is folded in. -/
def processItem (fetchN : String → List Sample) (totals : Totals)
    (it : String × ℚ) : Totals :=
  if pyStrip it.1 = "" ∨ it.2 ≤ 0 then totals
  else (fetchN (pyStrip it.1)).foldl (processSample it.2) totals

/-- NutrientAccumulator: the totals_mg loop of analyze, starting from the
empty (all-zero) dict. A fetch that fails is modelled by fetchN returning
the empty sample list, exactly what get_food_nutrients does on any error. -/
def accumulateTotals (items : List (String × ℚ)) (fetchN : String → List Sample) :
    Totals :=
  items.foldl (processItem fetchN) []

/-- Modelled from the spec (§4.3, spec-side reformulation used to state the
accumulator claims): the milligram contribution of a single sample to one
category — the scaled, unit-normalized amount when the sample matches that
category, 0 otherwise. -/
def sampleContrib (qty_g : ℚ) (k : String) (s : Sample) : ℚ :=
  if matchNutrientKey s.1 = some k then convert_to_mg (s.2.1 * (qty_g / 100)) s.2.2
  else 0

/-- Modelled from the spec (§4.3, spec-side reformulation): the total
contribution of one (name, qty) item to one category — 0 for skipped items,
otherwise the sum of its samples' contributions. -/
def contribItem (fetchN : String → List Sample) (k : String)
    (it : String × ℚ) : ℚ :=
  if pyStrip it.1 = "" ∨ it.2 ≤ 0 then 0
  else ((fetchN (pyStrip it.1)).map (sampleContrib it.2 k)).sum

/-- Concrete nutrient lookup used by witnesses: "rice" reports Protein 10 g
and Potassium 100 mg per 100 g, every other food yields no samples. -/
def wFetch : String → List Sample :=
  fun n => if n = "rice" then [("Protein", (10, "g")), ("Potassium", (100, "mg"))] else []

/-- Python round(x, 2) of an exact rational, returned in hundredths: the
integer nearest to 100·x, ties going to the even integer. -/
def roundHundredths (q : ℚ) : ℤ :=
  let f : ℤ := ⌊q * 100⌋
  let r : ℚ := q * 100 - f
  if r < 1/2 then f
  else if 1/2 < r then f + 1
  else if f % 2 = 0 then f else f + 1

/-- Python str() of a two-decimal value given in hundredths: trailing zeros
dropped but at least one decimal digit kept (5000 ↦ "50.0", 450 ↦ "4.5",
1234 ↦ "12.34"). -/
def renderHundredths (n : ℤ) : String :=
  let m := n.natAbs
  let ip := m / 100
  let fr := m % 100
  let frs := if fr = 0 then "0"
    else if fr % 10 = 0 then Nat.repr (fr / 10)
    else if fr < 10 then "0" ++ Nat.repr fr
    else Nat.repr fr
  (if n < 0 then "-" else "") ++ Nat.repr ip ++ "." ++ frs

/-- Python f-string f"{round(q, 2)} u" used for the shortfall and totals
display strings. -/
def fmtAmount (q : ℚ) (u : String) : String :=
  renderHundredths (roundHundredths q) ++ " " ++ u

/-- The baseline dict of calculate_deficiency, one field per tracked
category (Protein and Fiber in grams, the rest in milligrams). -/
structure Baseline where
  protein : ℚ
  vitaminC : ℚ
  iron : ℚ
  calcium : ℚ
  fiber : ℚ
deriving DecidableEq

/-- Baseline defaults of calculate_deficiency (src/app.py lines 107-113),
with the gender-specific Iron default. -/
def defaultBaseline (gender : String) : Baseline :=
  { protein := 50, vitaminC := 90,
    iron := if pyLower gender = "female" then 18 else 8,
    calcium := 1000, fiber := 30 }

/-- BMI as computed in calculate_deficiency (src/app.py line 114): 0 when
the height is not positive. -/
def bmiOf (height_cm weight_kg : ℚ) : ℚ :=
  if height_cm > 0 then weight_kg / ((height_cm / 100) ^ 2) else 0

/-- Multiply every baseline field by one factor (the `for k in baseline`
loops of src/app.py lines 116-120). -/
def scaleBaseline (b : Baseline) (f : ℚ) : Baseline :=
  ⟨b.protein * f, b.vitaminC * f, b.iron * f, b.calcium * f, b.fiber * f⟩

/-- The BMI adjustment (src/app.py lines 115-120): Python
`if bmi and bmi < 18.5` then ×1.10, `elif bmi and bmi > 25` then ×0.90,
where a 0 bmi is falsy. -/
def adjustBaseline (b : Baseline) (bmi : ℚ) : Baseline :=
  if bmi ≠ 0 ∧ bmi < 37/2 then scaleBaseline b (11/10)
  else if bmi ≠ 0 ∧ bmi > 25 then scaleBaseline b (9/10)
  else b

/-- DeficiencyEvaluator: calculate_deficiency (src/app.py lines 106-138),
producing the insertion-ordered report dict as an association list, in the
order the code inserts: Protein, Fiber, then Vitamin C, Iron, Calcium. -/
def calculate_deficiency (totals : Totals) (gender : String)
    (height_cm weight_kg : ℚ) : List (String × String) :=
  let b := adjustBaseline (defaultBaseline gender) (bmiOf height_cm weight_kg)
  let protein_mg := totalsGet totals "Protein"
  let fiber_mg := totalsGet totals "Fiber"
  let d1 := if protein_mg < b.protein * 1000 * (3/5)
    then [("Protein", fmtAmount ((b.protein * 1000 - protein_mg) / 1000) "g")] else []
  let d2 := if fiber_mg < b.fiber * 1000 * (3/5)
    then [("Fiber", fmtAmount ((b.fiber * 1000 - fiber_mg) / 1000) "g")] else []
  let d3 := [("Vitamin C", b.vitaminC), ("Iron", b.iron), ("Calcium", b.calcium)].foldl
    (fun acc p =>
      let hv := totalsGet totals p.1
      if hv < p.2 * (3/5) then acc ++ [(p.1, fmtAmount (p.2 - hv) "mg")] else acc) []
  d1 ++ d2 ++ d3

/-- The base recommendation table of recommend_foods (src/app.py lines
141-147); each table entry is the two-element JSON array (food, amount). -/
def RECOMMEND_BASE : List (String × List (List String)) :=
  [("Protein", [["Chicken", "27 g"], ["Eggs", "13 g"], ["Paneer", "18 g"]]),
   ("Iron", [["Spinach", "2.7 mg"], ["Liver", "6.5 mg"], ["Beans", "3.7 mg"]]),
   ("Calcium", [["Milk", "120 mg"], ["Curd", "80 mg"], ["Almonds", "75 mg"]]),
   ("Fiber", [["Oats", "10 g"], ["Apple", "4.5 g"], ["Carrots", "3 g"]]),
   ("Vitamin C", [["Orange", "53 mg"], ["Guava", "200 mg"], ["Kiwi", "90 mg"]])]

/-- Python base.get(n, []). -/
def lookupBase : List (String × List (List String)) → String → List (List String)
  | [], _ => []
  | (k1, v) :: rest, k => if k1 = k then v else lookupBase rest k

/-- The parsed weather dict returned by get_weather (src/app.py lines
44-61). -/
structure Weather where
  condition : String
  temp : ℚ
  humidity : ℚ

/-- RecommendationEngine: recommend_foods (src/app.py lines 140-154). Each
output entry is the JSON array the code builds: two elements for category
table entries and three elements (f, "-", "-") for the two
weather-conditioned appends; the combined list is truncated to 10. A missing
weather dict is falsy, selecting the cold-weather foods. -/
def recommend_foods (defic : List (String × String)) (weather : Option Weather) :
    List (List String) :=
  let tempFoods := match weather with
    | some w => if w.temp > 30 then ["Cucumber", "Yogurt"] else ["Soup", "Eggs"]
    | none => ["Soup", "Eggs"]
  let out := defic.foldl (fun acc p => acc ++ lookupBase RECOMMEND_BASE p.1) []
  (out ++ tempFoods.map (fun f => [f, "-", "-"])).take 10

/-- The parsed body of an /analyze request (src/app.py lines 258-269), after
the numeric coercions (missing or non-numeric fields already coerced to ""
and 0 respectively). -/
structure AnalyzeRequest where
  city : String
  items : List (String × ℚ)
  gender : String
  height : ℚ
  weight : ℚ

/-- The JSON response of /analyze: a 400 client error or the assembled
analysis payload (src/app.py lines 271-272 and 312-317). -/
inductive AnalyzeResponse where
  | clientError (status : ℕ) (msg : String)
  | ok (weather : Weather) (total_nutrients : List (String × String))
      (deficient : List (String × String)) (recommendations : List (List String))

/-- One outbound external call of the analyze endpoint. -/
inductive ExtCall where
  | weatherCall (city : String)
  | nutrientCall (food : String)

/-- The stripped names of the items that reach get_food_nutrients: exactly
the items the accumulation loop does not skip. -/
def eligibleNames (items : List (String × ℚ)) : List String :=
  items.filterMap
    (fun it => if pyStrip it.1 = "" ∨ it.2 ≤ 0 then none else some (pyStrip it.1))

/-- ReportFormatter: the human_totals loop (src/app.py lines 305-310). -/
def humanTotals (totals : Totals) : List (String × String) :=
  totals.map (fun p =>
    if p.1 = "Protein" ∨ p.1 = "Fiber" then (p.1, fmtAmount (p.2 / 1000) "g")
    else (p.1, fmtAmount p.2 "mg"))

/-- The analyze request handler (src/app.py lines 256-317), instrumented
with the ordered list of external calls it performs: city check first, then
one weather call and one nutrient call per non-skipped item. -/
def analyzeHandler (req : AnalyzeRequest) (fetchW : String → Weather)
    (fetchN : String → List Sample) : AnalyzeResponse × List ExtCall :=
  let city := pyStrip req.city
  if city = "" then (AnalyzeResponse.clientError 400 "City required", [])
  else
    let weather := fetchW city
    let totals := accumulateTotals req.items fetchN
    let defic := calculate_deficiency totals req.gender req.height req.weight
    let recs := recommend_foods defic (some weather)
    (AnalyzeResponse.ok weather (humanTotals totals) defic recs,
      ExtCall.weatherCall city :: (eligibleNames req.items).map ExtCall.nutrientCall)

end NutriGuard

namespace NutriGuard

theorem strStarts_iff (n h : List Char) : strStarts n h = true ↔ n <+: h := by
  induction n generalizing h with
  | nil => simp [strStarts]
  | cons a as ih =>
    cases h with
    | nil => simp [strStarts]
    | cons b bs =>
      simp [strStarts, List.cons_prefix_cons, ih, and_comm]

theorem charsContain_iff (n h : List Char) : charsContain n h = true ↔ n <:+: h := by
  induction h with
  | nil =>
    cases n with
    | nil => simp [charsContain, strStarts]
    | cons c cs => simp [charsContain, strStarts]
  | cons c rest ih =>
    simp [charsContain, strStarts_iff, ih, List.infix_cons_iff]

theorem substrIn_iff (n h : String) : substrIn n h = true ↔ n.data <:+: h.data :=
  charsContain_iff n.data h.data

theorem matchKeyAux_eq_find (l : List (String × List String)) (low : String) :
    matchKeyAux l low = (l.find? (fun p => anyTriggerIn p.2 low)).map Prod.fst := by
  induction l with
  | nil => rfl
  | cons a rest ih =>
    cases hb : anyTriggerIn a.2 low with
    | true => simp [matchKeyAux, List.find?_cons, hb]
    | false => simpa [matchKeyAux, List.find?_cons, hb] using ih

theorem matchKeyAux_mem {l : List (String × List String)} {low c : String}
    (h : matchKeyAux l low = some c) : c ∈ l.map Prod.fst := by
  induction l with
  | nil => simp [matchKeyAux] at h
  | cons a rest ih =>
    obtain ⟨f, subs⟩ := a
    rw [matchKeyAux] at h
    split at h
    · simp only [Option.some.injEq] at h
      simp [h]
    · simpa using Or.inr (ih h)

/-- C5: the key matcher returns the first category, in NUTRIENT_KEY_MAP
order, one of whose trigger substrings is contained in the lowercased raw
name; it returns none exactly when no trigger occurs in the lowercased name;
and on the three concrete names it behaves as the spec says. -/
theorem matcher_first_match_wins (raw : String) :
    (matchNutrientKey raw
      = (NUTRIENT_KEY_MAP.find? (fun p => anyTriggerIn p.2 (pyLower raw))).map Prod.fst)
    ∧ (matchNutrientKey raw = none
        ↔ ∀ p ∈ NUTRIENT_KEY_MAP, ∀ s ∈ p.2, ¬ (s.data <:+: (pyLower raw).data))
    ∧ matchNutrientKey "Vitamin C, total ascorbic acid" = some "Vitamin C"
    ∧ matchNutrientKey "ascorbic acid" = some "Vitamin C"
    ∧ matchNutrientKey "Potassium" = none := by
  refine ⟨matchKeyAux_eq_find _ _, ?_, by decide, by decide, by decide⟩
  rw [matchNutrientKey, matchKeyAux_eq_find]
  simp [List.find?_eq_none, anyTriggerIn, substrIn_iff]

theorem convert_to_mg_eq_ite (x : ℚ) (u : String) :
    convert_to_mg x u
      = if pyLower u = "g" ∨ pyLower u = "gram" ∨ pyLower u = "grams" then x * 1000
        else x := by
  simp only [convert_to_mg]
  split
  · rfl
  · split <;> rfl

/-- C4: convert_to_mg multiplies by 1000 exactly on the case-insensitive gram
family, is the identity on the milligram family, and is the identity on every
other unit string; being a total function it never fails. -/
theorem convert_to_mg_unit_cases (x : ℚ) (u : String) :
    (pyLower u ∈ ["g", "gram", "grams"] → convert_to_mg x u = x * 1000)
    ∧ (pyLower u ∈ ["mg", "milligram", "milligrams"] → convert_to_mg x u = x)
    ∧ (pyLower u ∉ ["g", "gram", "grams"] → convert_to_mg x u = x) := by
  unfold convert_to_mg
  refine ⟨fun h => ?_, fun h => ?_, fun h => ?_⟩
  · simp only [List.mem_cons, List.not_mem_nil, or_false] at h
    simp [h]
  · simp only [List.mem_cons, List.not_mem_nil, or_false] at h
    rcases h with h | h | h <;> simp [h]
  · simp only [List.mem_cons, List.not_mem_nil, or_false] at h
    push_neg at h
    obtain ⟨h1, h2, h3⟩ := h
    simp only [h1, h2, h3, or_self, if_false]
    split <;> rfl

/-- Witness for convert_to_mg_unit_cases at concrete amounts and units. -/
theorem convert_to_mg_unit_cases_witness :
    convert_to_mg 5 "G" = 5 * 1000 ∧ convert_to_mg 7 "MG" = 7 ∧ convert_to_mg 9 "mcg" = 9 :=
  ⟨(convert_to_mg_unit_cases 5 "G").1 (by decide),
   (convert_to_mg_unit_cases 7 "MG").2.1 (by decide),
   (convert_to_mg_unit_cases 9 "mcg").2.2 (by decide)⟩

theorem totalsGet_addTo (t : Totals) (k v : _) (kq : String) :
    totalsGet (addTo t k v) kq = totalsGet t kq + (if kq = k then v else 0) := by
  induction t with
  | nil =>
    by_cases hk : k = kq
    · simp [addTo, totalsGet, hk]
    · have hk2 : ¬ kq = k := fun h => hk h.symm
      simp [addTo, totalsGet, hk, hk2]
  | cons a rest ih =>
    obtain ⟨k1, v1⟩ := a
    by_cases h1 : k1 = k
    · subst h1
      by_cases hq : k1 = kq
      · subst hq
        simp [addTo, totalsGet]
      · have hq2 : ¬ kq = k1 := fun h => hq h.symm
        simp [addTo, totalsGet, hq, hq2]
    · by_cases hq : k1 = kq
      · subst hq
        simp [addTo, totalsGet, h1]
      · simp [addTo, totalsGet, h1, hq, ih]

theorem processSample_get (q : ℚ) (t : Totals) (s : Sample) (k : String) :
    totalsGet (processSample q t s) k = totalsGet t k + sampleContrib q k s := by
  unfold processSample sampleContrib
  cases hm : matchNutrientKey s.1 with
  | none => simp
  | some key =>
    by_cases hk : key = k
    · subst hk
      simp [totalsGet_addTo]
    · have hk2 : ¬ k = key := fun h => hk h.symm
      simp [totalsGet_addTo, hk, hk2]

theorem foldl_processSample_get (q : ℚ) (samples : List Sample) (t : Totals)
    (k : String) :
    totalsGet (samples.foldl (processSample q) t) k
      = totalsGet t k + (samples.map (sampleContrib q k)).sum := by
  induction samples generalizing t with
  | nil => simp
  | cons s rest ih =>
    simp [List.foldl_cons, ih, processSample_get]
    ring

theorem processItem_get (fetchN : String → List Sample) (t : Totals)
    (it : String × ℚ) (k : String) :
    totalsGet (processItem fetchN t it) k = totalsGet t k + contribItem fetchN k it := by
  unfold processItem contribItem
  by_cases h : pyStrip it.1 = "" ∨ it.2 ≤ 0
  · simp [h]
  · simp [h, foldl_processSample_get]

theorem foldl_processItem_get (fetchN : String → List Sample)
    (items : List (String × ℚ)) (t : Totals) (k : String) :
    totalsGet (items.foldl (processItem fetchN) t) k
      = totalsGet t k + (items.map (contribItem fetchN k)).sum := by
  induction items generalizing t with
  | nil => simp
  | cons it rest ih =>
    simp [List.foldl_cons, ih, processItem_get]
    ring

theorem accumulateTotals_get (items : List (String × ℚ))
    (fetchN : String → List Sample) (k : String) :
    totalsGet (accumulateTotals items fetchN) k
      = (items.map (contribItem fetchN k)).sum := by
  unfold accumulateTotals
  rw [foldl_processItem_get]
  simp [totalsGet]

end NutriGuard

namespace NutriGuard

/-- C1: over any items and any per-food lookup, the accumulator starts from
the all-zero total; on every category its result is the sum of per-item
contributions; items with blank stripped name or non-positive quantity
contribute nothing; an item whose fetch yields no samples contributes
nothing (and the pass still completes, the fold being total); and a
sample's contribution is its amount scaled by qty/100 and unit-normalized
when the key matcher matches it, 0 when it does not. -/
theorem accumulator_pass_spec (items : List (String × ℚ)) (fetchN : String → List Sample) :
    (∀ k, totalsGet (accumulateTotals [] fetchN) k = 0)
    ∧ (∀ k, totalsGet (accumulateTotals items fetchN) k
        = (items.map (contribItem fetchN k)).sum)
    ∧ (∀ it : String × ℚ, pyStrip it.1 = "" ∨ it.2 ≤ 0 →
        ∀ k, contribItem fetchN k it = 0)
    ∧ (∀ it : String × ℚ, fetchN (pyStrip it.1) = [] →
        ∀ k, contribItem fetchN k it = 0)
    ∧ (∀ (q : ℚ) (k : String) (s : Sample), matchNutrientKey s.1 = some k →
        sampleContrib q k s = convert_to_mg (s.2.1 * (q / 100)) s.2.2)
    ∧ (∀ (q : ℚ) (k : String) (s : Sample), ¬ matchNutrientKey s.1 = some k →
        sampleContrib q k s = 0) := by
  refine ⟨fun k => by simp [accumulateTotals, totalsGet],
    fun k => accumulateTotals_get items fetchN k,
    fun it h k => by simp [contribItem, h],
    fun it h k => ?_,
    fun q k s h => by simp [sampleContrib, h],
    fun q k s h => by simp [sampleContrib, h]⟩
  by_cases hs : pyStrip it.1 = "" ∨ it.2 ≤ 0
  · simp [contribItem, hs]
  · simp [contribItem, hs, h]

/-- Witness for accumulator_pass_spec: a pass over a good item, a blank item
and a repeated good item under the concrete lookup wFetch. -/
theorem accumulator_pass_spec_witness :
    totalsGet (accumulateTotals [("rice", 100), (" ", 50), ("rice", 200)] wFetch) "Protein"
      = 30000
    ∧ contribItem wFetch "Protein" (" ", 50) = 0
    ∧ contribItem wFetch "Protein" ("bread", 50) = 0
    ∧ sampleContrib 100 "Protein" ("Protein", (10, "g"))
        = convert_to_mg (10 * ((100 : ℚ) / 100)) "g"
    ∧ sampleContrib 100 "Protein" ("Potassium", (100, "mg")) = 0 := by
  have h := accumulator_pass_spec [("rice", 100), (" ", 50), ("rice", 200)] wFetch
  refine ⟨?_, h.2.2.1 _ (Or.inl (by decide)) _, h.2.2.2.1 _ (by decide) _,
    h.2.2.2.2.1 100 "Protein" _ (by decide), h.2.2.2.2.2 100 "Protein" _ (by decide)⟩
  rw [h.2.1]
  have e1 : pyStrip "rice" = "rice" := by decide
  have e2 : pyStrip " " = "" := by decide
  have m1 : matchNutrientKey "Protein" = some "Protein" := by decide
  have m2 : matchNutrientKey "Potassium" = none := by decide
  have hg : pyLower "g" = "g" ∨ pyLower "g" = "gram" ∨ pyLower "g" = "grams" := by decide
  have hmg : ¬ (pyLower "mg" = "g" ∨ pyLower "mg" = "gram" ∨ pyLower "mg" = "grams") := by
    decide
  have hr : ¬ ("rice" : String) = "" := by decide
  have hsome : ¬ ((none : Option String) = some "Protein") := by decide
  norm_num [contribItem, sampleContrib, wFetch, e1, e2, m1, m2, convert_to_mg_eq_ite,
    hg, hmg, hr, hsome]

/-- C8: permuting the items list never changes any accumulated total. -/
theorem accumulate_perm_invariant (items1 items2 : List (String × ℚ))
    (fetchN : String → List Sample) (hp : items1.Perm items2) (k : String) :
    totalsGet (accumulateTotals items1 fetchN) k
      = totalsGet (accumulateTotals items2 fetchN) k := by
  rw [accumulateTotals_get, accumulateTotals_get]
  exact List.Perm.sum_eq (hp.map (contribItem fetchN k))

/-- Witness for accumulate_perm_invariant: swapping two concrete items. -/
theorem accumulate_perm_invariant_witness :
    totalsGet (accumulateTotals [("rice", 100), ("milk", 50)] wFetch) "Protein"
      = totalsGet (accumulateTotals [("milk", 50), ("rice", 100)] wFetch) "Protein" :=
  accumulate_perm_invariant _ _ wFetch (List.Perm.swap ("milk", 50) ("rice", 100) []) "Protein"

theorem keys_addTo (t : Totals) (k : String) (v : ℚ) (kq : String) :
    kq ∈ (addTo t k v).map Prod.fst → kq ∈ t.map Prod.fst ∨ kq = k := by
  induction t with
  | nil =>
    intro h
    simp [addTo] at h
    exact Or.inr h
  | cons a rest ih =>
    obtain ⟨k1, v1⟩ := a
    intro h
    by_cases h1 : k1 = k
    · rw [addTo, if_pos h1, List.map_cons] at h
      rw [List.map_cons]
      exact Or.inl h
    · rw [addTo, if_neg h1, List.map_cons] at h
      rw [List.map_cons]
      rcases List.mem_cons.mp h with h | h
      · exact Or.inl (List.mem_cons.mpr (Or.inl h))
      · rcases ih h with h2 | h2
        · exact Or.inl (List.mem_cons.mpr (Or.inr h2))
        · exact Or.inr h2

theorem keys_processSample (q : ℚ) (t : Totals) (s : Sample) (kq : String) :
    kq ∈ (processSample q t s).map Prod.fst →
      kq ∈ t.map Prod.fst ∨ kq ∈ trackedCategories := by
  intro h
  rcases hm : matchNutrientKey s.1 with _ | key
  · have he : processSample q t s = t := by
      unfold processSample
      rw [hm]
    rw [he] at h
    exact Or.inl h
  · have he : processSample q t s
        = addTo t key (convert_to_mg (s.2.1 * (q / 100)) s.2.2) := by
      unfold processSample
      rw [hm]
    rw [he] at h
    rcases keys_addTo t key _ kq h with h2 | h2
    · exact Or.inl h2
    · have hmem : key ∈ NUTRIENT_KEY_MAP.map Prod.fst := matchKeyAux_mem hm
      have heq : NUTRIENT_KEY_MAP.map Prod.fst = trackedCategories := by decide
      rw [h2]
      exact Or.inr (heq ▸ hmem)

theorem keys_foldl_processSample (q : ℚ) (samples : List Sample) :
    ∀ (t : Totals) (kq : String),
      kq ∈ (samples.foldl (processSample q) t).map Prod.fst →
        kq ∈ t.map Prod.fst ∨ kq ∈ trackedCategories := by
  induction samples with
  | nil => exact fun t kq h => Or.inl h
  | cons s rest ih =>
    intro t kq h
    rcases ih (processSample q t s) kq h with h2 | h2
    · exact keys_processSample q t s kq h2
    · exact Or.inr h2

theorem keys_processItem (fetchN : String → List Sample) (t : Totals)
    (it : String × ℚ) (kq : String) :
    kq ∈ (processItem fetchN t it).map Prod.fst →
      kq ∈ t.map Prod.fst ∨ kq ∈ trackedCategories := by
  intro h
  unfold processItem at h
  by_cases hs : pyStrip it.1 = "" ∨ it.2 ≤ 0
  · rw [if_pos hs] at h
    exact Or.inl h
  · rw [if_neg hs] at h
    exact keys_foldl_processSample _ _ _ _ h

theorem keys_foldl_processItem (fetchN : String → List Sample)
    (items : List (String × ℚ)) :
    ∀ (t : Totals) (kq : String),
      kq ∈ (items.foldl (processItem fetchN) t).map Prod.fst →
        kq ∈ t.map Prod.fst ∨ kq ∈ trackedCategories := by
  induction items with
  | nil => exact fun t kq h => Or.inl h
  | cons it rest ih =>
    intro t kq h
    rcases ih (processItem fetchN t it) kq h with h2 | h2
    · exact keys_processItem fetchN t it kq h2
    · exact Or.inr h2

/-- C7: after any accumulation pass, every key of the canonical totals map is
one of the five tracked categories; unmatched nutrient names never introduce
a key. -/
theorem totals_keys_closed (items : List (String × ℚ))
    (fetchN : String → List Sample) (k : String)
    (hk : k ∈ (accumulateTotals items fetchN).map Prod.fst) :
    k ∈ trackedCategories := by
  rcases keys_foldl_processItem fetchN items [] k hk with h | h
  · simp at h
  · exact h

/-- Witness for totals_keys_closed on a concrete pass. -/
theorem totals_keys_closed_witness :
    "Protein" ∈ (accumulateTotals [("rice", 100)] wFetch).map Prod.fst
    ∧ "Protein" ∈ trackedCategories :=
  ⟨by decide, totals_keys_closed [("rice", 100)] wFetch "Protein" (by decide)⟩

end NutriGuard

namespace NutriGuard

/-- C9: the recommendation output never exceeds 10 entries. -/
theorem recommend_output_bounded (defic : List (String × String))
    (weather : Option Weather) :
    (recommend_foods defic weather).length ≤ 10 := by
  unfold recommend_foods
  simp [List.length_take]

/-- Counterexample to C6 as stated: with only Protein deficient and
temperature 35, the last two entries are not the pairs ("Cucumber","-") and
("Yogurt","-") — the code appends three-element entries — so the output is
not the claimed list of five pairs. -/
theorem recommend_pairs_counterexample :
    recommend_foods [("Protein", "50.0 g")] (some ⟨"Sunny", 35, 50⟩)
      ≠ [["Chicken", "27 g"], ["Eggs", "13 g"], ["Paneer", "18 g"],
         ["Cucumber", "-"], ["Yogurt", "-"]] := by decide

/-- C6 amended: with a deficiency report containing only Protein and weather
temperature 35, the engine returns exactly the five entries Chicken, Eggs,
Paneer, Cucumber, Yogurt in that order; the three category entries are
(name, amount) pairs and the two weather-conditioned entries are the
triples ("Cucumber","-","-") and ("Yogurt","-","-"). -/
theorem recommend_protein_hot_weather :
    recommend_foods [("Protein", "50.0 g")] (some ⟨"Sunny", 35, 50⟩)
      = [["Chicken", "27 g"], ["Eggs", "13 g"], ["Paneer", "18 g"],
         ["Cucumber", "-", "-"], ["Yogurt", "-", "-"]] := by decide

/-- C10: when the stripped city is empty the handler answers the 400 client
error and its external-call log is empty — no weather or nutrient call is
made, whatever the providers would have answered. -/
theorem analyze_empty_city_rejected (req : AnalyzeRequest)
    (fetchW : String → Weather) (fetchN : String → List Sample)
    (hc : pyStrip req.city = "") :
    analyzeHandler req fetchW fetchN
      = (AnalyzeResponse.clientError 400 "City required", []) := by
  simp [analyzeHandler, hc]

/-- Witness for analyze_empty_city_rejected: a whitespace-only city. -/
theorem analyze_empty_city_rejected_witness :
    analyzeHandler ⟨" ", [("rice", 100)], "male", 170, 70⟩
        (fun _ => ⟨"Unknown", 25, 50⟩) wFetch
      = (AnalyzeResponse.clientError 400 "City required", []) :=
  analyze_empty_city_rejected _ _ _ (by decide)

end NutriGuard

namespace NutriGuard

theorem bmiOf_nonneg (h w : ℚ) (hw : 0 ≤ w) : 0 ≤ bmiOf h w := by
  unfold bmiOf
  split
  · exact div_nonneg hw (sq_nonneg _)
  · exact le_refl 0

/-- C3: for every profile with nonnegative weight (UserProfile weights are
≥ 0), at most one BMI adjustment applies: strictly between 0 and 18.5 every
baseline is scaled by 1.10, strictly above 25 by 0.90, otherwise the
baselines are unchanged; the two brackets are mutually exclusive, the
boundary values 18.5 and 25 trigger nothing, and a non-positive height gives
BMI 0 and no adjustment. -/
theorem bmi_adjustment_brackets (gender : String) (h w : ℚ) (hw : 0 ≤ w) :
    (0 < bmiOf h w ∧ bmiOf h w < 37/2 →
      adjustBaseline (defaultBaseline gender) (bmiOf h w)
        = scaleBaseline (defaultBaseline gender) (11/10))
    ∧ (25 < bmiOf h w →
      adjustBaseline (defaultBaseline gender) (bmiOf h w)
        = scaleBaseline (defaultBaseline gender) (9/10))
    ∧ (¬ (0 < bmiOf h w ∧ bmiOf h w < 37/2) → ¬ 25 < bmiOf h w →
      adjustBaseline (defaultBaseline gender) (bmiOf h w) = defaultBaseline gender)
    ∧ ¬ ((0 < bmiOf h w ∧ bmiOf h w < 37/2) ∧ 25 < bmiOf h w)
    ∧ (bmiOf h w = 37/2 →
      adjustBaseline (defaultBaseline gender) (bmiOf h w) = defaultBaseline gender)
    ∧ (bmiOf h w = 25 →
      adjustBaseline (defaultBaseline gender) (bmiOf h w) = defaultBaseline gender)
    ∧ (h ≤ 0 → bmiOf h w = 0
        ∧ adjustBaseline (defaultBaseline gender) (bmiOf h w) = defaultBaseline gender) := by
  have hnn : 0 ≤ bmiOf h w := bmiOf_nonneg h w hw
  have unchanged : ∀ hb1 : ¬ (bmiOf h w ≠ 0 ∧ bmiOf h w < 37/2),
      ∀ hb2 : ¬ (bmiOf h w ≠ 0 ∧ bmiOf h w > 25),
      adjustBaseline (defaultBaseline gender) (bmiOf h w) = defaultBaseline gender := by
    intro hb1 hb2
    unfold adjustBaseline
    rw [if_neg hb1, if_neg hb2]
  refine ⟨?_, ?_, ?_, ?_, ?_, ?_, ?_⟩
  · rintro ⟨h1, h2⟩
    unfold adjustBaseline
    rw [if_pos ⟨ne_of_gt h1, h2⟩]
  · intro h1
    unfold adjustBaseline
    have hc1 : ¬ (bmiOf h w ≠ 0 ∧ bmiOf h w < 37/2) := by
      rintro ⟨_, h2⟩
      linarith
    have hc2 : bmiOf h w ≠ 0 ∧ bmiOf h w > 25 :=
      ⟨ne_of_gt (lt_trans (by norm_num) h1), h1⟩
    rw [if_neg hc1, if_pos hc2]
  · intro h1 h2
    refine unchanged ?_ ?_
    · rintro ⟨hne, hlt⟩
      exact h1 ⟨lt_of_le_of_ne hnn (Ne.symm hne), hlt⟩
    · rintro ⟨_, hgt⟩
      exact h2 hgt
  · rintro ⟨⟨_, h2⟩, h3⟩
    linarith
  · intro he
    refine unchanged ?_ ?_
    · rintro ⟨_, hlt⟩
      rw [he] at hlt
      exact absurd hlt (lt_irrefl _)
    · rintro ⟨_, hgt⟩
      rw [he] at hgt
      norm_num at hgt
  · intro he
    refine unchanged ?_ ?_
    · rintro ⟨_, hlt⟩
      rw [he] at hlt
      norm_num at hlt
    · rintro ⟨_, hgt⟩
      rw [he] at hgt
      exact absurd hgt (lt_irrefl _)
  · intro hh
    have hz : bmiOf h w = 0 := by
      unfold bmiOf
      rw [if_neg (not_lt.mpr hh)]
    refine ⟨hz, unchanged ?_ ?_⟩
    · rintro ⟨hne, _⟩
      exact hne hz
    · rintro ⟨hne, _⟩
      exact hne hz

end NutriGuard

namespace NutriGuard

/-- Witness for bmi_adjustment_brackets: the zero-height, zero-weight
profile of the empty-totals scenario. -/
theorem bmi_adjustment_brackets_witness :
    bmiOf 0 0 = 0
    ∧ adjustBaseline (defaultBaseline "female") (bmiOf 0 0) = defaultBaseline "female" :=
  (bmi_adjustment_brackets "female" 0 0 (by decide)).2.2.2.2.2.2 (by decide)

theorem roundHundredths_intCast (n : ℤ) : roundHundredths (n : ℚ) = 100 * n := by
  unfold roundHundredths
  have h1 : ((n : ℚ)) * 100 = ((100 * n : ℤ) : ℚ) := by
    push_cast
    ring
  rw [h1, Int.floor_intCast]
  norm_num

theorem fmtAmount_ofInt (n : ℤ) (u : String) :
    fmtAmount (n : ℚ) u = renderHundredths (100 * n) ++ " " ++ u := by
  rw [fmtAmount, roundHundredths_intCast]

/-- C2: with gender female, zero height and weight and empty totals, the
deficiency report flags exactly the five tracked categories, with shortfall
strings 50.0 g (Protein), 90.0 mg (Vitamin C), 18.0 mg (Iron), 1000.0 mg
(Calcium) and 30.0 g (Fiber), in the insertion order the code produces. -/
theorem deficiency_empty_totals_female :
    calculate_deficiency [] "female" 0 0
      = [("Protein", "50.0 g"), ("Fiber", "30.0 g"), ("Vitamin C", "90.0 mg"),
         ("Iron", "18.0 mg"), ("Calcium", "1000.0 mg")]
    ∧ ((calculate_deficiency [] "female" 0 0).map Prod.fst).Perm trackedCategories := by
  have hf : pyLower "female" = "female" := by decide
  have hb0 : bmiOf 0 0 = 0 := by simp [bmiOf]
  have hadj : adjustBaseline (defaultBaseline "female") (bmiOf 0 0)
      = Baseline.mk 50 90 18 1000 30 := by
    rw [hb0]
    simp [adjustBaseline, defaultBaseline, hf]
  have f1 : fmtAmount (50 : ℚ) "g" = "50.0 g" := by
    rw [(by norm_num : (50 : ℚ) = ((50 : ℤ) : ℚ)), fmtAmount_ofInt]
    decide
  have f2 : fmtAmount (30 : ℚ) "g" = "30.0 g" := by
    rw [(by norm_num : (30 : ℚ) = ((30 : ℤ) : ℚ)), fmtAmount_ofInt]
    decide
  have f3 : fmtAmount (90 : ℚ) "mg" = "90.0 mg" := by
    rw [(by norm_num : (90 : ℚ) = ((90 : ℤ) : ℚ)), fmtAmount_ofInt]
    decide
  have f4 : fmtAmount (18 : ℚ) "mg" = "18.0 mg" := by
    rw [(by norm_num : (18 : ℚ) = ((18 : ℤ) : ℚ)), fmtAmount_ofInt]
    decide
  have f5 : fmtAmount (1000 : ℚ) "mg" = "1000.0 mg" := by
    rw [(by norm_num : (1000 : ℚ) = ((1000 : ℤ) : ℚ)), fmtAmount_ofInt]
    decide
  have hmain : calculate_deficiency [] "female" 0 0
      = [("Protein", "50.0 g"), ("Fiber", "30.0 g"), ("Vitamin C", "90.0 mg"),
         ("Iron", "18.0 mg"), ("Calcium", "1000.0 mg")] := by
    simp only [calculate_deficiency, hadj, totalsGet]
    norm_num [f1, f2, f3, f4, f5]
  exact ⟨hmain, by rw [hmain]; decide⟩

end NutriGuard
